import Mathlib

/-!
Shallow embedding of the auto-arm decision engine from
`custom_components/autoarm` (autoarming.py, calendar.py, const.py,
helpers.py, hass_api.py).

Time is modelled as `Int` (a timestamp); Home Assistant entity states are
modelled as `Option String` (the raw state string, `none` when the entity
is missing).  Exceptions raised by condition predicates are modelled with
`Except String`.  The Home Assistant sensor used for the last-calculation
diagnostic is modelled as an append-only list on the engine state.
-/

set_option autoImplicit false

namespace Autoarm

/-- `AlarmControlPanelState`, the Home Assistant alarm panel state enum,
in member declaration order. -/
inductive AlarmState where
  | disarmed
  | armed_home
  | armed_away
  | armed_night
  | armed_vacation
  | armed_custom_bypass
  | pending
  | arming
  | disarming
  | triggered
deriving DecidableEq, Repr

/-- The string value of each `AlarmControlPanelState` member (lower-cased
member name, as in `const.ALARM_STATES`). -/
def AlarmState.toStr : AlarmState → String
  | .disarmed => "disarmed"
  | .armed_home => "armed_home"
  | .armed_away => "armed_away"
  | .armed_night => "armed_night"
  | .armed_vacation => "armed_vacation"
  | .armed_custom_bypass => "armed_custom_bypass"
  | .pending => "pending"
  | .arming => "arming"
  | .disarming => "disarming"
  | .triggered => "triggered"

/-- All panel states in declaration order (`const.ALARM_STATES` holds
their lower-cased names). -/
def allAlarmStates : List AlarmState :=
  [.disarmed, .armed_home, .armed_away, .armed_night, .armed_vacation,
   .armed_custom_bypass, .pending, .arming, .disarming, .triggered]

/-- `const.ALARM_STATES`: the lower-cased member names. -/
def ALARM_STATES : List String := allAlarmStates.map AlarmState.toStr

/-- `helpers.alarm_state_as_enum`: parse a raw state string into the enum,
`none` for `None` input or an invalid state string. -/
def alarm_state_as_enum (state_str : Option String) : Option AlarmState :=
  match state_str with
  | none => none
  | some s => allAlarmStates.find? (fun a => a.toStr = s)

/-- `autoarming.EPHEMERAL_STATES`: the transient panel states. -/
def EPHEMERAL_STATES : List AlarmState :=
  [.pending, .arming, .disarming, .triggered]

/-- `const.ChangeSource`. -/
inductive ChangeSource where
  | calendar
  | mobile
  | occupancy
  | alarm_panel
  | button
  | action
  | sunrise
  | sunset
  | zombification
  | startup
deriving DecidableEq, Repr

/-- `autoarming.Intervention`: record of a manual intervention. -/
structure Intervention where
  created_at : Int
  source : ChangeSource
  state : Option AlarmState
deriving DecidableEq, Repr

/-- `helpers.Limiter`: sliding-window rate limiting tracker. -/
structure Limiter where
  calls : List Int
  window : Int
  max_calls : Nat
deriving DecidableEq, Repr

/-- `Limiter.triggered`: register a call at `now` and check whether the
window-based rate limit triggered.  The source appends `now`, removes the
calls older than `now - window` (iterating a copy of the sorted call list
and calling `remove`, which amounts to a filter) and returns whether the
in-scope count exceeds `max_calls`. -/
def Limiter.triggered (l : Limiter) (now : Int) : Bool × Limiter :=
  let cut_off : Int := now - l.window
  let calls : List Int := l.calls ++ [now]
  let kept : List Int := calls.filter (fun c => cut_off ≤ c)
  (kept.length > l.max_calls, { l with calls := kept })

/-- Run a sequence of `Limiter.triggered` calls, keeping the final
limiter state. -/
def run_calls (l : Limiter) (ts : List Int) : Limiter :=
  ts.foldl (fun acc t => (acc.triggered t).2) l

/-- A Home Assistant `CalendarEvent` payload (the fields this integration
reads).  `start_datetime_local` / `end_datetime_local` are timestamps. -/
structure CalendarEvent where
  summary : Option String := none
  description : Option String := none
  uid : Option String := none
  start_datetime_local : Int
  end_datetime_local : Int
deriving DecidableEq, Repr

/-- `calendar.TrackedCalendarEvent` (the fields its pure predicates
read). -/
structure TrackedCalendarEvent where
  event : CalendarEvent
  arming_state : AlarmState
  no_event_mode : Option String := none
  previous_state : Option AlarmState := none
  track_status : String := "pending"
deriving DecidableEq, Repr

/-- `TrackedCalendarEvent.is_current`: never current once ended,
otherwise current when `start_datetime_local <= now <=
end_datetime_local`. -/
def TrackedCalendarEvent.is_current (t : TrackedCalendarEvent) (now : Int) : Bool :=
  if t.track_status = "ended" then false
  else t.event.start_datetime_local ≤ now && now ≤ t.event.end_datetime_local

/-- `TrackedCalendarEvent.is_future`. -/
def TrackedCalendarEvent.is_future (t : TrackedCalendarEvent) (now : Int) : Bool :=
  if t.track_status = "ended" then false
  else now < t.event.start_datetime_local

/-- `calendar.TrackedCalendar` (the tracked-event map, in insertion
order). -/
structure TrackedCalendar where
  tracked_events : List TrackedCalendarEvent
deriving DecidableEq, Repr

/-- `TrackedCalendar.active_events`: the payloads of all tracked events
that are currently open. -/
def TrackedCalendar.active_events (c : TrackedCalendar) (now : Int) : List CalendarEvent :=
  (c.tracked_events.filter (fun t => t.is_current now)).map (fun t => t.event)

/-- `TrackedCalendar.has_active_event`. -/
def TrackedCalendar.has_active_event (c : TrackedCalendar) (now : Int) : Bool :=
  c.tracked_events.any (fun t => t.is_current now)

/-- `const.ConditionVariables`: the snapshot dataclass added to the
template context of transition conditions. -/
structure ConditionVariables where
  occupied : Bool
  night : Bool
  state : AlarmState
  occupied_defaults : List (String × AlarmState)
  calendar_event : Option CalendarEvent := none
  at_home : List String := []
  not_home : List String := []

/-- The flattened fact dictionary produced by
`ConditionVariables.as_dict` and exposed to transition predicates. -/
structure FactDict where
  daytime : Bool
  occupied : Bool
  at_home : List String
  not_home : List String
  vacation : Bool
  night : Bool
  bypass : Bool
  manual : Bool
  calendar_event : Option CalendarEvent
  state : String
  occupied_daytime_state : AlarmState
  disarmed : Bool
  computed : Bool

/-- Python `dict.get(key, default)` over an insertion-ordered
association list. -/
def dictGet (m : List (String × AlarmState)) (key : String) (dflt : AlarmState) : AlarmState :=
  match m.find? (fun p => p.1 = key) with
  | some p => p.2
  | none => dflt

/-- `ConditionVariables.as_dict`, field for field from the source.  Note
the source binds the `not_home` key to `self.at_home or []`, not to
`self.not_home`. -/
def ConditionVariables.as_dict (cv : ConditionVariables) : FactDict :=
  { daytime := !cv.night
    occupied := cv.occupied
    at_home := cv.at_home
    not_home := cv.at_home
    vacation := cv.state = .armed_vacation
    night := cv.night
    bypass := cv.state = .armed_custom_bypass
    manual := cv.state = .armed_vacation || cv.state = .armed_custom_bypass
    calendar_event := cv.calendar_event
    state := cv.state.toStr
    occupied_daytime_state := dictGet cv.occupied_defaults "day" .armed_home
    disarmed := cv.state = .disarmed
    computed := cv.calendar_event.isNone &&
      !(cv.state = .armed_vacation || cv.state = .armed_custom_bypass) }

/-- The last-calculation diagnostic record written to
`sensor.autoarm_last_calculation` in the `finally` block of
`reset_armed_state`. -/
structure DiagRecord where
  change : Bool
  new_state : Option AlarmState
  old_state : Option AlarmState
  source : Option ChangeSource
  active_calendar_event : Option CalendarEvent
  occupied : Bool
  night : Bool
  must_change_state : Bool
  last_state_intervention : Option Intervention
  intervention : Option Intervention
  time : Int

/-- `autoarming.AlarmArmer`: the engine state, plus the slice of the
Home Assistant world it reads (raw panel state string, occupant entity
states, sun state).  `commit_ok` models whether the panel-state write in
`arm` raises; `failures` is the `AppHealthTracker` runtime-error counter;
`published_diags` is the append-only log of last-calculation diagnostic
publishes. -/
structure AlarmArmer where
  panel : Option String
  calendars : List TrackedCalendar
  calendar_no_event_mode : Option String
  occupants : List String
  occupantState : String → Option String
  sunState : Option String
  occupied_defaults : List (String × AlarmState)
  transitions : List (AlarmState × (FactDict → Except String Bool))
  interventions : List Intervention
  rate_limiter : Limiter
  commit_ok : Bool := true
  failures : Nat := 0
  published_diags : List DiagRecord := []

/-- `AlarmArmer.armed_state`: the panel state parsed into the enum, with
a missing or invalid panel state treated as `pending`. -/
def AlarmArmer.armed_state (a : AlarmArmer) : AlarmState :=
  (alarm_state_as_enum a.panel).getD .pending

/-- `AlarmArmer.is_occupied`: any occupant entity in state `home`. -/
def AlarmArmer.is_occupied (a : AlarmArmer) : Bool :=
  a.occupants.any (fun p => a.occupantState p = some "home")

/-- `AlarmArmer.at_home`. -/
def AlarmArmer.at_home (a : AlarmArmer) : List String :=
  a.occupants.filter (fun p => a.occupantState p = some "home")

/-- `AlarmArmer.not_home`. -/
def AlarmArmer.not_home (a : AlarmArmer) : List String :=
  a.occupants.filter (fun p => ¬(a.occupantState p = some "home"))

/-- `AlarmArmer.is_night`: `sun.sun` below the horizon. -/
def AlarmArmer.is_night (a : AlarmArmer) : Bool :=
  a.sunState = some "below_horizon"

/-- `AlarmArmer.active_calendar_event`: extend a list with every
calendar's active events and return the first, if any. -/
def AlarmArmer.active_calendar_event (a : AlarmArmer) (now : Int) : Option CalendarEvent :=
  (a.calendars.foldr (fun c acc => c.active_events now ++ acc) []).head?

/-- `AlarmArmer.has_active_calendar_event`. -/
def AlarmArmer.has_active_calendar_event (a : AlarmArmer) (now : Int) : Bool :=
  a.calendars.any (fun c => c.has_active_event now)

/-- `AlarmArmer.has_intervention_since`: any recorded intervention newer
than the cutoff. -/
def AlarmArmer.has_intervention_since (a : AlarmArmer) (cutoff : Int) : Bool :=
  a.interventions.any (fun i => i.created_at > cutoff)

/-- `AlarmArmer.last_state_intervention`: the most recent intervention
whose state is not `None`. -/
def AlarmArmer.last_state_intervention (a : AlarmArmer) : Option Intervention :=
  (a.interventions.filter (fun i => i.state.isSome)).getLast?

/-- `AlarmArmer.is_intervention_since_request`. -/
def AlarmArmer.is_intervention_since_request (a : AlarmArmer) (requested_at : Option Int) : Bool :=
  match requested_at with
  | some t => a.has_intervention_since t
  | none => false

/-- `AlarmArmer.arm`: the Actuator.  Guards checked in order: `None`
target, target equal to the current observed state, rate limiter.  Then
the commit: re-read the current state, write the new panel state (which
may raise: `commit_ok = false` models the exception path, caught and
counted through the health tracker). -/
def AlarmArmer.arm (a : AlarmArmer) (now : Int) (arming_state : Option AlarmState)
    (_source : Option ChangeSource) : Option AlarmState × AlarmArmer :=
  match arming_state with
  | none => (none, a)
  | some st =>
    if a.armed_state = st then (none, a)
    else
      let trig : Bool × Limiter := a.rate_limiter.triggered now
      let a1 : AlarmArmer := { a with rate_limiter := trig.2 }
      if trig.1 then (none, a1)
      else if a1.commit_ok then
        let existing := a1.armed_state
        if st ≠ existing then (some st, { a1 with panel := some st.toStr })
        else (some existing, a1)
      else (none, { a1 with failures := a1.failures + 1 })

/-- The `ConditionVariables` snapshot constructed at the top of
`determine_state`. -/
def AlarmArmer.condition_variables (a : AlarmArmer) (now : Int) : ConditionVariables :=
  { occupied := a.is_occupied
    night := a.is_night
    state := a.armed_state
    calendar_event := a.active_calendar_event now
    occupied_defaults := a.occupied_defaults
    at_home := a.at_home
    not_home := a.not_home }

/-- The loop of `determine_state`: evaluate each configured transition
condition in insertion order, return the first state whose predicate is
true, propagating a predicate evaluation error (as
`HomeAssistantAPI.evaluate_condition` re-raises). -/
def first_transition : List (AlarmState × (FactDict → Except String Bool)) → FactDict →
    Except String (Option AlarmState)
  | [], _ => .ok none
  | (st, checker) :: rest, facts =>
    match checker facts with
    | .error e => .error e
    | .ok true => .ok (some st)
    | .ok false => first_transition rest facts

/-- `AlarmArmer.determine_state`: compute a new state from the snapshot
and the ordered transition conditions. -/
def AlarmArmer.determine_state (a : AlarmArmer) (now : Int) : Except String (Option AlarmState) :=
  first_transition a.transitions (a.condition_variables now).as_dict

/-- `mode in AlarmControlPanelState`: a no-event mode string names a
panel state. -/
def mode_is_alarm_state (m : Option String) : Bool :=
  match m with
  | some s => ALARM_STATES.contains s
  | none => false

/-- The locals and effects of the `try` body of `reset_armed_state`,
captured for the `finally` diagnostic publish and for the theorems:
`state_local` is the value of the `state` local at body exit,
`determine_called` records whether `determine_state` was invoked, and
`arm_calls` records each target passed to `arm`. -/
structure BodyOut where
  result : Except String (Option AlarmState)
  armer : AlarmArmer
  state_local : Option AlarmState
  must_change : Bool
  last_si : Option Intervention
  active_ev : Option CalendarEvent
  determine_called : Bool
  arm_calls : List (Option AlarmState)

/-- Step 5 of `reset_armed_state`: invoke the Decision Engine and, when
it returns a non-`None`, non-`pending` state different from the current
one, commit it via the Actuator.  A predicate evaluation error leaves the
`state` local at its previous value (the existing state) and escapes. -/
def reset_step5 (a : AlarmArmer) (now : Int) (source : Option ChangeSource)
    (existing_state : AlarmState) (must_change : Bool) (last_si : Option Intervention)
    (active_ev : Option CalendarEvent) : BodyOut :=
  match a.determine_state now with
  | .error e =>
    { result := .error e, armer := a, state_local := some existing_state,
      must_change := must_change, last_si := last_si, active_ev := active_ev,
      determine_called := true, arm_calls := [] }
  | .ok stOpt =>
    if stOpt ≠ none ∧ stOpt ≠ some .pending ∧ stOpt ≠ some existing_state then
      let r : Option AlarmState × AlarmArmer := a.arm now stOpt source
      { result := .ok r.1, armer := r.2, state_local := r.1,
        must_change := must_change, last_si := last_si, active_ev := active_ev,
        determine_called := true, arm_calls := [stOpt] }
    else
      { result := .ok stOpt, armer := a, state_local := stOpt,
        must_change := must_change, last_si := last_si, active_ev := active_ev,
        determine_called := true, arm_calls := [] }

/-- Step 4 of `reset_armed_state`: intervention handling.  Prior
interventions are ignored when the call carries an intervention, the
source is calendar or occupancy, or the state must change (unset or
`pending` panel); otherwise a recorded state-setting intervention blocks
the recompute. -/
def reset_step4 (a : AlarmArmer) (now : Int) (intervention : Option Intervention)
    (source : Option ChangeSource) (existing_state : AlarmState)
    (active_ev : Option CalendarEvent) : BodyOut :=
  let must_change : Bool := existing_state = .pending
  if intervention.isSome || source = some .calendar || source = some .occupancy || must_change then
    reset_step5 a now source existing_state must_change none active_ev
  else
    let last_si : Option Intervention := a.last_state_intervention
    if last_si.isSome then
      { result := .ok (some existing_state), armer := a, state_local := some existing_state,
        must_change := must_change, last_si := last_si, active_ev := active_ev,
        determine_called := false, arm_calls := [] }
    else
      reset_step5 a now source existing_state must_change last_si active_ev

/-- The `try` body of `reset_armed_state`: calendar short-circuits
(steps 1-3) followed by intervention handling and recompute (steps
4-5). -/
def reset_body (a : AlarmArmer) (now : Int) (intervention : Option Intervention)
    (source : Option ChangeSource) (existing_state : AlarmState) : BodyOut :=
  if a.calendars = [] then
    reset_step4 a now intervention source existing_state none
  else
    match a.active_calendar_event now with
    | some ev =>
      { result := .ok (some existing_state), armer := a, state_local := some existing_state,
        must_change := false, last_si := none, active_ev := some ev,
        determine_called := false, arm_calls := [] }
    | none =>
      if a.calendar_no_event_mode = some "manual" then
        { result := .ok (some existing_state), armer := a, state_local := some existing_state,
          must_change := false, last_si := none, active_ev := none,
          determine_called := false, arm_calls := [] }
      else if mode_is_alarm_state a.calendar_no_event_mode then
        let target : Option AlarmState := alarm_state_as_enum a.calendar_no_event_mode
        let r : Option AlarmState × AlarmArmer := a.arm now target (some .calendar)
        { result := .ok r.1, armer := r.2, state_local := some existing_state,
          must_change := false, last_si := none, active_ev := none,
          determine_called := false, arm_calls := [target] }
      else
        reset_step4 a now intervention source existing_state none

/-- The `finally` block of `reset_armed_state`: append the
last-calculation diagnostic record to the published log.  It writes a
sensor, never the panel. -/
def publish_last_calculation (a : AlarmArmer) (d : DiagRecord) : AlarmArmer :=
  { a with published_diags := a.published_diags ++ [d] }

/-- The outcome of a `reset_armed_state` call. -/
structure ResetOutcome where
  result : Except String (Option AlarmState)
  armer : AlarmArmer
  determine_called : Bool
  arm_calls : List (Option AlarmState)

/-- The source fallback at the top of `reset_armed_state`: when no
source is given, take the intervention's source. -/
def resolve_source (source0 : Option ChangeSource) (intervention : Option Intervention) :
    Option ChangeSource :=
  match source0, intervention with
  | none, some i => some i.source
  | s, _ => s

/-- The last-calculation diagnostic record assembled from the locals of
the `reset_armed_state` body. -/
def reset_diag (now : Int) (intervention : Option Intervention)
    (source : Option ChangeSource) (existing_state : AlarmState) (b : BodyOut) : DiagRecord :=
  { change := b.state_local.isSome && !(b.state_local = some existing_state : Bool)
    new_state := b.state_local
    old_state := some existing_state
    source := source
    active_calendar_event := b.active_ev
    occupied := b.armer.is_occupied
    night := b.armer.is_night
    must_change_state := b.must_change
    last_state_intervention := b.last_si
    intervention := intervention
    time := now }

/-- `AlarmArmer.reset_armed_state`: decide whether to invoke the
Decision Engine and commit its result, and publish the last-calculation
diagnostic on every exit path (the `finally` block), including when a
predicate evaluation error escapes. -/
def AlarmArmer.reset_armed_state (a : AlarmArmer) (now : Int)
    (intervention : Option Intervention) (source0 : Option ChangeSource) : ResetOutcome :=
  let source : Option ChangeSource := resolve_source source0 intervention
  let existing_state : AlarmState := a.armed_state
  let b : BodyOut := reset_body a now intervention source existing_state
  { result := b.result
    armer := publish_last_calculation b.armer (reset_diag now intervention source existing_state b)
    determine_called := b.determine_called
    arm_calls := b.arm_calls }

/-- `AlarmArmer.delayed_reset_armed_state`: the scheduled reset
callback.  Returns whether the inner `reset_armed_state` was invoked,
and the resulting engine state. -/
def AlarmArmer.delayed_reset_armed_state (a : AlarmArmer) (now : Int)
    (requested_at : Option Int) (intervention : Option Intervention)
    (source : Option ChangeSource) : Bool × AlarmArmer :=
  if a.is_intervention_since_request requested_at then (false, a)
  else (true, (a.reset_armed_state now intervention source).armer)

/-- `AlarmArmer.delayed_arm`: the scheduled arm callback. -/
def AlarmArmer.delayed_arm (a : AlarmArmer) (now : Int) (requested_at : Option Int)
    (arming_state : Option AlarmState) (source : Option ChangeSource) : Bool × AlarmArmer :=
  if a.is_intervention_since_request requested_at then (false, a)
  else (true, (a.arm now arming_state source).2)

/-! ## Helper lemmas -/

theorem triggered_fst_char (l : Limiter) (now : Int) :
    (l.triggered now).1 = decide ((l.triggered now).2.calls.length > l.max_calls) := rfl

theorem triggered_no_prune (l : Limiter) (t tN : Int)
    (hc : ∀ c ∈ l.calls, tN - l.window ≤ c) (ht1 : tN - l.window ≤ t) (ht2 : t ≤ tN) :
    (l.triggered t).2.calls = l.calls ++ [t] ∧ (l.triggered t).2.window = l.window ∧
      (l.triggered t).2.max_calls = l.max_calls := by
  unfold Limiter.triggered
  refine ⟨?_, rfl, rfl⟩
  simp only
  rw [List.filter_eq_self]
  intro c hcmem
  rcases List.mem_append.mp hcmem with hmem | hmem
  · have := hc c hmem
    simp only [decide_eq_true_eq]
    omega
  · simp only [List.mem_singleton] at hmem
    subst hmem
    simp only [decide_eq_true_eq]
    omega

theorem run_calls_no_prune (tN : Int) :
    ∀ (ts : List Int) (l : Limiter),
      (∀ c ∈ l.calls, tN - l.window ≤ c) → (∀ t ∈ ts, tN - l.window ≤ t ∧ t ≤ tN) →
      (run_calls l ts).calls = l.calls ++ ts ∧ (run_calls l ts).window = l.window ∧
        (run_calls l ts).max_calls = l.max_calls := by
  intro ts
  induction ts with
  | nil => intro l _ _; simp [run_calls]
  | cons t ts ih =>
    intro l hc hts
    have ht := hts t (List.mem_cons_self t ts)
    have step := triggered_no_prune l t tN hc ht.1 ht.2
    have hrun : run_calls l (t :: ts) = run_calls (l.triggered t).2 ts := rfl
    rw [hrun]
    have hc2 : ∀ c ∈ (l.triggered t).2.calls, tN - (l.triggered t).2.window ≤ c := by
      rw [step.1, step.2.1]
      intro c hcmem
      rcases List.mem_append.mp hcmem with hmem | hmem
      · exact hc c hmem
      · simp only [List.mem_singleton] at hmem; subst hmem; exact ht.1
    have hts2 : ∀ u ∈ ts, tN - (l.triggered t).2.window ≤ u ∧ u ≤ tN := by
      rw [step.2.1]
      exact fun u hu => hts u (List.mem_cons_of_mem t hu)
    obtain ⟨h1, h2, h3⟩ := ih (l.triggered t).2 hc2 hts2
    refine ⟨?_, ?_, ?_⟩
    · rw [h1, step.1, List.append_assoc]; rfl
    · rw [h2, step.2.1]
    · rw [h3, step.2.2]

/-! ## C3: rate limiter -/

/-- C3: `Limiter.triggered` appends the current timestamp, drops entries
older than `now - window`, and returns true iff the remaining count
exceeds `max_calls`; after `N` calls within the window followed by an
(N+1)th call still within the window the (N+1)th call returns true; and
once the whole window has elapsed with no further calls, the next single
call returns false. -/
theorem limiter_triggered_spec :
    (∀ (l : Limiter) (now : Int),
      (l.triggered now).1 =
        decide (((l.calls ++ [now]).filter (fun c => now - l.window ≤ c)).length > l.max_calls) ∧
      (l.triggered now).2.calls = (l.calls ++ [now]).filter (fun c => now - l.window ≤ c)) ∧
    (∀ (W tN : Int) (N : Nat) (ts : List Int), 1 ≤ N → 0 ≤ W → ts.length = N →
      (∀ t ∈ ts, tN - W ≤ t ∧ t ≤ tN) →
      ((run_calls ⟨[], W, N⟩ ts).triggered tN).1 = true) ∧
    (∀ (l : Limiter) (now : Int), 0 ≤ l.window → 1 ≤ l.max_calls →
      (∀ c ∈ l.calls, c < now - l.window) → (l.triggered now).1 = false) := by
  refine ⟨fun l now => ⟨rfl, rfl⟩, ?_, ?_⟩
  · intro W tN N ts hN hW hlen hts
    obtain ⟨h1, h2, h3⟩ := run_calls_no_prune tN ts ⟨[], W, N⟩ (by simp) hts
    obtain ⟨k1, k2, k3⟩ :=
      triggered_no_prune (run_calls ⟨[], W, N⟩ ts) tN tN
        (by
          rw [h1, h2]
          intro c hcmem
          simp only [List.nil_append] at hcmem
          exact (hts c hcmem).1)
        (by rw [h2]; show tN - W ≤ tN; omega) le_rfl
    rw [triggered_fst_char, decide_eq_true_eq, k1, h1, h3]
    show ([] ++ ts ++ [tN]).length > N
    simp only [List.nil_append, List.length_append, List.length_singleton, hlen]
    omega
  · intro l now hW hmax hold
    rw [triggered_fst_char]
    have hcalls : (l.triggered now).2.calls = [now] := by
      show (l.calls ++ [now]).filter (fun c => now - l.window ≤ c) = [now]
      rw [List.filter_append]
      have h1 : l.calls.filter (fun c => now - l.window ≤ c) = [] := by
        rw [List.filter_eq_nil_iff]
        intro c hcmem
        have := hold c hcmem
        simp only [decide_eq_true_eq]
        omega
      have h2 : [now].filter (fun c => now - l.window ≤ c) = [now] := by
        rw [List.filter_eq_self]
        intro c hcmem
        simp only [List.mem_singleton] at hcmem
        subst hcmem
        simp only [decide_eq_true_eq]
        omega
      rw [h1, h2, List.nil_append]
    rw [hcalls]
    simp only [List.length_singleton, decide_eq_false_iff_not]
    omega

/-- Witness for C3: concrete instantiations of all three conjuncts. -/
theorem limiter_triggered_spec_witness :
    (1:Nat) ≤ 1 ∧ (0:Int) ≤ 60 ∧ ([(10:Int)]).length = 1 ∧
    (∀ t ∈ [(10:Int)], (11:Int) - 60 ≤ t ∧ t ≤ 11) ∧
    ((run_calls ⟨[], 60, 1⟩ [10]).triggered 11).1 = true ∧
    (∀ c ∈ ([(0:Int)]), c < (100:Int) - 60) ∧
    ((Limiter.mk [0] 60 1).triggered 100).1 = false :=
  ⟨le_rfl, by norm_num, rfl, by decide,
    limiter_triggered_spec.2.1 60 11 1 [10] le_rfl (by norm_num) rfl (by decide),
    by decide,
    limiter_triggered_spec.2.2 ⟨[0], 60, 1⟩ 100 (by norm_num) le_rfl (by decide)⟩

/-! ## Shared concrete fixtures -/

/-- A minimal concrete engine state used by witnesses. -/
def sampleArmer : AlarmArmer :=
  { panel := some "disarmed"
    calendars := []
    calendar_no_event_mode := some "auto"
    occupants := []
    occupantState := fun _ => none
    sunState := none
    occupied_defaults := []
    transitions := []
    interventions := []
    rate_limiter := ⟨[], 60, 5⟩ }

/-! ## C7: Actuator no-op guards -/

/-- C7: `arm` with a `None` target or a target equal to the current
observed panel state returns `None` and leaves the engine state —
panel and rate limiter included — untouched: the guards precede the
rate-limit check. -/
theorem arm_noop_guards (a : AlarmArmer) (now : Int) (st : Option AlarmState)
    (source : Option ChangeSource) (h : st = none ∨ st = some a.armed_state) :
    (a.arm now st source).1 = none ∧ (a.arm now st source).2 = a := by
  rcases h with h | h <;> subst h
  · exact ⟨rfl, rfl⟩
  · have harm : a.arm now (some a.armed_state) source = (none, a) := by
      simp [AlarmArmer.arm]
    rw [harm]
    exact ⟨rfl, rfl⟩

/-- Witness for C7 at a concrete engine state, in both guard cases. -/
theorem arm_noop_guards_witness :
    (some AlarmState.disarmed = none ∨ some AlarmState.disarmed = some sampleArmer.armed_state) ∧
    (sampleArmer.arm 0 (some .disarmed) none).1 = none ∧
    (sampleArmer.arm 0 (some .disarmed) none).2 = sampleArmer ∧
    (sampleArmer.arm 0 none (some .button)).1 = none ∧
    (sampleArmer.arm 0 none (some .button)).2 = sampleArmer := by
  have h : some AlarmState.disarmed = none ∨ some AlarmState.disarmed = some sampleArmer.armed_state :=
    Or.inr rfl
  have h1 := arm_noop_guards sampleArmer 0 (some .disarmed) none h
  have h2 := arm_noop_guards sampleArmer 0 none (some .button) (Or.inl rfl)
  exact ⟨h, h1.1, h1.2, h2.1, h2.2⟩

/-! ## C8: calendar event currency window -/

/-- A tracked event with window `[0, 10]` that has started. -/
def c8_event : TrackedCalendarEvent :=
  { event := { start_datetime_local := 0, end_datetime_local := 10 }
    arming_state := .armed_away
    track_status := "started" }

/-- Counterexample to C8 as stated: at `now = end` the source still
reports the event current (`is_current` uses `now <= end`, a closed
interval, not the half-open `[start, end)` of the claim). -/
theorem is_current_half_open_cex :
    c8_event.track_status ≠ "ended" ∧ c8_event.is_current 10 = true ∧
    ¬(c8_event.event.start_datetime_local ≤ 10 ∧ (10:Int) < c8_event.event.end_datetime_local) := by
  refine ⟨by decide, by decide, by decide⟩

/-- C8 amended: a tracked event that has not ended is current exactly on
the closed window `[start, end]`. -/
theorem is_current_closed_interval (t : TrackedCalendarEvent) (now : Int)
    (h : t.track_status ≠ "ended") :
    t.is_current now = true ↔
      t.event.start_datetime_local ≤ now ∧ now ≤ t.event.end_datetime_local := by
  unfold TrackedCalendarEvent.is_current
  rw [if_neg h]
  simp only [Bool.and_eq_true, decide_eq_true_eq]

/-- Witness for the amended C8 at a concrete event and time. -/
theorem is_current_closed_interval_witness :
    c8_event.track_status ≠ "ended" ∧
    (c8_event.is_current 5 = true ↔
      c8_event.event.start_datetime_local ≤ 5 ∧ (5:Int) ≤ c8_event.event.end_datetime_local) :=
  ⟨by decide, is_current_closed_interval c8_event 5 (by decide)⟩

/-! ## C2: the `not_home` fact -/

/-- An engine state with one occupant home and one away. -/
def c2_armer : AlarmArmer :=
  { sampleArmer with
    occupants := ["person.alice", "person.bob"]
    occupantState := fun p => if p = "person.alice" then some "home" else some "not_home" }

/-- C2 failing input: the snapshot computes `at_home = [alice]` and
`not_home = [bob]`, but the flattened fact dictionary supplied to
transition predicates binds the key `not_home` to the `at_home` list,
not to the snapshot field `not_home`. -/
theorem not_home_fact_is_at_home :
    c2_armer.at_home = ["person.alice"] ∧
    c2_armer.not_home = ["person.bob"] ∧
    (c2_armer.condition_variables 0).not_home = ["person.bob"] ∧
    ((c2_armer.condition_variables 0).as_dict).not_home = ["person.alice"] ∧
    ((c2_armer.condition_variables 0).as_dict).not_home ≠ (c2_armer.condition_variables 0).not_home ∧
    (∀ (cv : ConditionVariables), cv.as_dict.not_home = cv.at_home) := by
  refine ⟨rfl, rfl, rfl, rfl, by decide, fun cv => rfl⟩

/-! ## C9: delayed callbacks cancelled by later interventions -/

/-- C9: a scheduled `delayed_reset_armed_state` or `delayed_arm` whose
request time precedes some recorded intervention silently no-ops: it
neither invokes the inner operation nor changes the engine state. -/
theorem delayed_callback_cancelled (a : AlarmArmer) (now t : Int)
    (intervention : Option Intervention) (source : Option ChangeSource)
    (st : Option AlarmState) (h : ∃ i ∈ a.interventions, t < i.created_at) :
    a.delayed_reset_armed_state now (some t) intervention source = (false, a) ∧
    a.delayed_arm now (some t) st source = (false, a) := by
  have hb : a.is_intervention_since_request (some t) = true := by
    unfold AlarmArmer.is_intervention_since_request AlarmArmer.has_intervention_since
    obtain ⟨i, hi, hlt⟩ := h
    rw [List.any_eq_true]
    exact ⟨i, hi, by simpa using hlt⟩
  constructor
  · unfold AlarmArmer.delayed_reset_armed_state
    rw [hb]
    rfl
  · unfold AlarmArmer.delayed_arm
    rw [hb]
    rfl

/-- An engine state with an intervention recorded at time 5. -/
def c9_armer : AlarmArmer :=
  { sampleArmer with interventions := [⟨5, .button, some .armed_home⟩] }

/-- Witness for C9: delay requested at 0, intervention at 5, callback at
10. -/
theorem delayed_callback_cancelled_witness :
    (∃ i ∈ c9_armer.interventions, (0:Int) < i.created_at) ∧
    c9_armer.delayed_reset_armed_state 10 (some 0) none (some .button) = (false, c9_armer) ∧
    c9_armer.delayed_arm 10 (some 0) (some .armed_away) (some .button) = (false, c9_armer) := by
  have h : ∃ i ∈ c9_armer.interventions, (0:Int) < i.created_at :=
    ⟨⟨5, .button, some .armed_home⟩, by simp [c9_armer, sampleArmer], by norm_num⟩
  have hc := delayed_callback_cancelled c9_armer 10 0 none (some .button) (some .armed_away) h
  exact ⟨h, hc.1, hc.2⟩

/-! ## C5: Decision Engine first-match -/

/-- Truth of a transition rule on a fact dictionary: its predicate
evaluates to `ok true`. -/
def transition_pred (facts : FactDict) (p : AlarmState × (FactDict → Except String Bool)) : Bool :=
  match p.2 facts with
  | .ok true => true
  | _ => false

theorem first_transition_eq_find (facts : FactDict) :
    ∀ (ts : List (AlarmState × (FactDict → Except String Bool))),
      (∀ p ∈ ts, ∃ b, p.2 facts = .ok b) →
      first_transition ts facts = .ok ((ts.find? (transition_pred facts)).map Prod.fst) := by
  intro ts
  induction ts with
  | nil => intro _; rfl
  | cons p rest ih =>
    intro h
    obtain ⟨b, hb⟩ := h p (List.mem_cons_self p rest)
    have hrest : ∀ q ∈ rest, ∃ b, q.2 facts = .ok b :=
      fun q hq => h q (List.mem_cons_of_mem p hq)
    have hft : first_transition (p :: rest) facts =
        (match p.2 facts with
          | .error e => .error e
          | .ok true => .ok (some p.1)
          | .ok false => first_transition rest facts) := by
      obtain ⟨st, checker⟩ := p
      rfl
    cases b
    · have hpred : transition_pred facts p = false := by
        unfold transition_pred
        rw [hb]
      rw [hft, hb, List.find?_cons_of_neg rest (by rw [hpred]; exact Bool.false_ne_true)]
      exact ih hrest
    · have hpred : transition_pred facts p = true := by
        unfold transition_pred
        rw [hb]
      rw [hft, hb, List.find?_cons_of_pos rest hpred]
      rfl

/-- C5: when every configured predicate evaluates without error,
`determine_state` returns the target of the first rule, in insertion
order, whose predicate is true — and `none` when no predicate is
true. -/
theorem determine_state_first_match (a : AlarmArmer) (now : Int)
    (h : ∀ p ∈ a.transitions, ∃ b, p.2 ((a.condition_variables now).as_dict) = .ok b) :
    a.determine_state now =
      .ok ((a.transitions.find? (transition_pred ((a.condition_variables now).as_dict))).map
        Prod.fst) :=
  first_transition_eq_find ((a.condition_variables now).as_dict) a.transitions h

/-- An engine state whose rule set has two rules with always-true
predicates: `disarmed` configured before `armed_home`. -/
def c5_armer : AlarmArmer :=
  { sampleArmer with
    transitions := [(.disarmed, fun _ => .ok true), (.armed_home, fun _ => .ok true)] }

/-- Witness for C5: with two rules both true, the rule configured
earlier wins. -/
theorem determine_state_first_match_witness :
    (∀ p ∈ c5_armer.transitions, ∃ b, p.2 ((c5_armer.condition_variables 0).as_dict) = .ok b) ∧
    c5_armer.determine_state 0 = .ok (some .disarmed) := by
  have h : ∀ p ∈ c5_armer.transitions, ∃ b, p.2 ((c5_armer.condition_variables 0).as_dict) = .ok b := by
    intro p hp
    simp only [c5_armer, sampleArmer, List.mem_cons, List.not_mem_nil, or_false] at hp
    rcases hp with rfl | rfl
    · exact ⟨true, rfl⟩
    · exact ⟨true, rfl⟩
  refine ⟨h, ?_⟩
  rw [determine_state_first_match c5_armer 0 h]
  rfl

/-! ## Calendar activity helper lemmas -/

theorem active_events_ne_nil {c : TrackedCalendar} {now : Int}
    (h : ∃ t ∈ c.tracked_events, t.is_current now = true) : c.active_events now ≠ [] := by
  obtain ⟨t, ht, hcur⟩ := h
  unfold TrackedCalendar.active_events
  intro heq
  rw [List.map_eq_nil_iff] at heq
  have : t ∈ c.tracked_events.filter (fun t => t.is_current now) :=
    List.mem_filter.mpr ⟨ht, hcur⟩
  rw [heq] at this
  exact List.not_mem_nil t this

theorem foldr_events_ne_nil (now : Int) :
    ∀ (ls : List TrackedCalendar) (c : TrackedCalendar), c ∈ ls → c.active_events now ≠ [] →
      ls.foldr (fun c acc => c.active_events now ++ acc) [] ≠ [] := by
  intro ls
  induction ls with
  | nil => intro c hc; cases hc
  | cons d ds ih =>
    intro c hc hne
    rcases List.mem_cons.mp hc with rfl | hmem
    · simp only [List.foldr_cons]
      intro heq
      exact hne (List.append_eq_nil.mp heq).1
    · simp only [List.foldr_cons]
      intro heq
      exact ih c hmem hne (List.append_eq_nil.mp heq).2

theorem active_calendar_event_isSome {a : AlarmArmer} {now : Int}
    (h : ∃ c ∈ a.calendars, ∃ t ∈ c.tracked_events, t.is_current now = true) :
    (a.active_calendar_event now).isSome = true := by
  obtain ⟨c, hc, hte⟩ := h
  unfold AlarmArmer.active_calendar_event
  have hne := foldr_events_ne_nil now a.calendars c hc (active_events_ne_nil hte)
  rcases hl : a.calendars.foldr (fun c acc => c.active_events now ++ acc) [] with _ | ⟨x, xs⟩
  · exact absurd hl hne
  · rw [hl]; rfl

theorem foldr_events_nil (now : Int) :
    ∀ (ls : List TrackedCalendar),
      (∀ c ∈ ls, ∀ t ∈ c.tracked_events, t.is_current now = false) →
      ls.foldr (fun c acc => c.active_events now ++ acc) [] = [] := by
  intro ls
  induction ls with
  | nil => intro _; rfl
  | cons d ds ih =>
    intro h
    simp only [List.foldr_cons]
    rw [List.append_eq_nil]
    constructor
    · unfold TrackedCalendar.active_events
      rw [List.map_eq_nil_iff, List.filter_eq_nil_iff]
      intro t ht
      rw [h d (List.mem_cons_self d ds) t ht]
      exact Bool.false_ne_true
    · exact ih (fun c hc => h c (List.mem_cons_of_mem d hc))

theorem active_calendar_event_none {a : AlarmArmer} {now : Int}
    (h : ∀ c ∈ a.calendars, ∀ t ∈ c.tracked_events, t.is_current now = false) :
    a.active_calendar_event now = none := by
  unfold AlarmArmer.active_calendar_event
  rw [List.head?_eq_none_iff]
  exact foldr_events_nil now a.calendars h

/-! ## C1: calendar priority -/

theorem reset_body_active_event (a : AlarmArmer) (now : Int) (intervention : Option Intervention)
    (source : Option ChangeSource) (existing_state : AlarmState) (ev : CalendarEvent)
    (hne : ¬(a.calendars = [])) (hev : a.active_calendar_event now = some ev) :
    reset_body a now intervention source existing_state =
      { result := .ok (some existing_state), armer := a, state_local := some existing_state,
        must_change := false, last_si := none, active_ev := some ev,
        determine_called := false, arm_calls := [] } := by
  unfold reset_body
  rw [if_neg hne, hev]

/-- C1: whenever any tracked calendar event is currently active,
`reset_armed_state` — for every intervention argument and every source —
returns the current panel state without invoking the Decision Engine and
without changing the panel state. -/
theorem calendar_event_priority (a : AlarmArmer) (now : Int)
    (intervention : Option Intervention) (source : Option ChangeSource)
    (h : ∃ c ∈ a.calendars, ∃ t ∈ c.tracked_events, t.is_current now = true) :
    (a.reset_armed_state now intervention source).result = .ok (some a.armed_state) ∧
    (a.reset_armed_state now intervention source).determine_called = false ∧
    (a.reset_armed_state now intervention source).armer.panel = a.panel := by
  obtain ⟨c, hc, hte⟩ := h
  have hne : ¬(a.calendars = []) := List.ne_nil_of_mem hc
  obtain ⟨ev, hev⟩ :=
    Option.isSome_iff_exists.mp (active_calendar_event_isSome ⟨c, hc, hte⟩)
  have hb := reset_body_active_event a now intervention
    (resolve_source source intervention) a.armed_state ev hne hev
  refine ⟨?_, ?_, ?_⟩ <;>
    simp [AlarmArmer.reset_armed_state, hb, publish_last_calculation]

/-- A tracked event active at time 50, and an engine tracking it. -/
def c1_event : TrackedCalendarEvent :=
  { event := { start_datetime_local := 40, end_datetime_local := 60 }
    arming_state := .armed_vacation
    track_status := "started" }

/-- An engine state with one calendar holding `c1_event`. -/
def c1_armer : AlarmArmer :=
  { sampleArmer with calendars := [⟨[c1_event]⟩] }

/-- Witness for C1 at a concrete engine state and time. -/
theorem calendar_event_priority_witness :
    (∃ c ∈ c1_armer.calendars, ∃ t ∈ c.tracked_events, t.is_current 50 = true) ∧
    (c1_armer.reset_armed_state 50 none (some .sunset)).result = .ok (some c1_armer.armed_state) ∧
    (c1_armer.reset_armed_state 50 none (some .sunset)).determine_called = false ∧
    (c1_armer.reset_armed_state 50 none (some .sunset)).armer.panel = c1_armer.panel := by
  have h : ∃ c ∈ c1_armer.calendars, ∃ t ∈ c.tracked_events, t.is_current 50 = true :=
    ⟨⟨[c1_event]⟩, by simp [c1_armer, sampleArmer], c1_event, by simp, by decide⟩
  have hc := calendar_event_priority c1_armer 50 none (some .sunset) h
  exact ⟨h, hc.1, hc.2.1, hc.2.2⟩

/-! ## C4: intervention suppression -/

theorem last_state_intervention_isSome {a : AlarmArmer}
    (h : ∃ i ∈ a.interventions, i.state.isSome = true) :
    a.last_state_intervention.isSome = true := by
  unfold AlarmArmer.last_state_intervention
  rw [List.getLast?_isSome]
  obtain ⟨i, hi, hs⟩ := h
  exact List.ne_nil_of_mem (List.mem_filter.mpr ⟨hi, hs⟩)

theorem reset_body_no_event_auto (a : AlarmArmer) (now : Int)
    (intervention : Option Intervention) (source : Option ChangeSource)
    (existing_state : AlarmState)
    (h2 : a.calendars = [] ∨
      (a.active_calendar_event now = none ∧ a.calendar_no_event_mode ≠ some "manual" ∧
        mode_is_alarm_state a.calendar_no_event_mode = false)) :
    reset_body a now intervention source existing_state =
      reset_step4 a now intervention source existing_state none := by
  unfold reset_body
  by_cases hcal : a.calendars = []
  · rw [if_pos hcal]
  · rcases h2 with h | ⟨hev, hman, hmode⟩
    · exact absurd h hcal
    · rw [if_neg hcal, hev, if_neg hman]
      simp only [hmode, Bool.false_eq_true, if_false]

theorem reset_step4_suppressed (a : AlarmArmer) (now : Int) (source : Option ChangeSource)
    (existing_state : AlarmState) (active_ev : Option CalendarEvent)
    (h3 : ¬(existing_state = AlarmState.pending))
    (h5 : ¬(source = some ChangeSource.calendar) ∧ ¬(source = some ChangeSource.occupancy))
    (h6 : a.last_state_intervention.isSome = true) :
    reset_step4 a now none source existing_state active_ev =
      { result := .ok (some existing_state), armer := a,
        state_local := some existing_state, must_change := decide (existing_state = .pending),
        last_si := a.last_state_intervention, active_ev := active_ev,
        determine_called := false, arm_calls := [] } := by
  unfold reset_step4
  have hcond : ((none : Option Intervention).isSome ||
      decide (source = some ChangeSource.calendar) ||
      decide (source = some ChangeSource.occupancy) ||
      decide (existing_state = AlarmState.pending)) = false := by
    simp [h3, h5.1, h5.2]
  simp only [hcond, Bool.false_eq_true, if_false, h6, if_true]

/-- C4: with no active calendar event, no manual/fixed no-event policy
short-circuit, a stable (non-`pending`) panel state, no intervention
argument, a source other than calendar/occupancy, and a recorded
state-setting intervention in the ledger, `reset_armed_state` returns
the current panel state unchanged without invoking the Decision
Engine. -/
theorem intervention_suppression (a : AlarmArmer) (now : Int) (source : Option ChangeSource)
    (h1 : ∀ c ∈ a.calendars, ∀ t ∈ c.tracked_events, t.is_current now = false)
    (h2 : a.calendars = [] ∨
      (a.calendar_no_event_mode ≠ some "manual" ∧
        mode_is_alarm_state a.calendar_no_event_mode = false))
    (h3 : a.armed_state ≠ AlarmState.pending)
    (h5 : source ≠ some ChangeSource.calendar ∧ source ≠ some ChangeSource.occupancy)
    (h6 : ∃ i ∈ a.interventions, i.state.isSome = true) :
    (a.reset_armed_state now none source).result = .ok (some a.armed_state) ∧
    (a.reset_armed_state now none source).determine_called = false ∧
    (a.reset_armed_state now none source).armer.panel = a.panel := by
  have hs : resolve_source source none = source := by
    cases source <;> rfl
  have h2a : a.calendars = [] ∨
      (a.active_calendar_event now = none ∧ a.calendar_no_event_mode ≠ some "manual" ∧
        mode_is_alarm_state a.calendar_no_event_mode = false) := by
    rcases h2 with h | ⟨hman, hmode⟩
    · exact Or.inl h
    · exact Or.inr ⟨active_calendar_event_none h1, hman, hmode⟩
  have hbody := reset_body_no_event_auto a now none source a.armed_state h2a
  have hstep := reset_step4_suppressed a now source a.armed_state none h3 h5
    (last_state_intervention_isSome h6)
  refine ⟨?_, ?_, ?_⟩ <;>
    simp [AlarmArmer.reset_armed_state, hs, hbody, hstep, publish_last_calculation]

/-- An engine state with a recorded state-setting intervention and no
calendars. -/
def c4_armer : AlarmArmer :=
  { sampleArmer with interventions := [⟨5, .button, some .armed_home⟩] }

/-- Witness for C4 at a concrete engine state: a button intervention in
the ledger suppresses a sunset-triggered recompute. -/
theorem intervention_suppression_witness :
    (∀ c ∈ c4_armer.calendars, ∀ t ∈ c.tracked_events, t.is_current 100 = false) ∧
    c4_armer.calendars = [] ∧
    c4_armer.armed_state ≠ AlarmState.pending ∧
    (∃ i ∈ c4_armer.interventions, i.state.isSome = true) ∧
    (c4_armer.reset_armed_state 100 none (some .sunset)).result =
      .ok (some c4_armer.armed_state) ∧
    (c4_armer.reset_armed_state 100 none (some .sunset)).determine_called = false ∧
    (c4_armer.reset_armed_state 100 none (some .sunset)).armer.panel = c4_armer.panel := by
  have h1 : ∀ c ∈ c4_armer.calendars, ∀ t ∈ c.tracked_events, t.is_current 100 = false := by
    intro c hc
    simp [c4_armer, sampleArmer] at hc
  have h6 : ∃ i ∈ c4_armer.interventions, i.state.isSome = true :=
    ⟨⟨5, .button, some .armed_home⟩, by simp [c4_armer, sampleArmer], rfl⟩
  have hc := intervention_suppression c4_armer 100 (some .sunset) h1 (Or.inl rfl)
    (by decide) (by refine ⟨?_, ?_⟩ <;> simp) h6
  exact ⟨h1, rfl, by decide, h6, hc.1, hc.2.1, hc.2.2⟩

/-! ## C6: transient states and the recompute path -/

/-- An engine state whose configured rule set targets the transient
state `arming` (the configuration schema permits any panel state as a
transition key). -/
def c6_armer : AlarmArmer :=
  { sampleArmer with transitions := [(.arming, fun _ => .ok true)] }

/-- Counterexample to C6 as stated: with a configured rule targeting
`arming`, the recompute path of `reset_armed_state` passes the transient
state `arming` to the Actuator, which commits it to the panel — only
`pending` is guarded. -/
theorem transient_state_committed_cex :
    (c6_armer.reset_armed_state 0 none (some .startup)).determine_called = true ∧
    (c6_armer.reset_armed_state 0 none (some .startup)).arm_calls = [some AlarmState.arming] ∧
    AlarmState.arming ∈ EPHEMERAL_STATES ∧
    (c6_armer.reset_armed_state 0 none (some .startup)).armer.panel = some "arming" := by
  refine ⟨rfl, rfl, by decide, rfl⟩

theorem reset_step5_arm_calls (a : AlarmArmer) (now : Int) (source : Option ChangeSource)
    (existing_state : AlarmState) (must_change : Bool) (last_si : Option Intervention)
    (active_ev : Option CalendarEvent) :
    ∀ stOpt ∈ (reset_step5 a now source existing_state must_change last_si active_ev).arm_calls,
      stOpt ≠ none ∧ stOpt ≠ some AlarmState.pending ∧ stOpt ≠ some existing_state := by
  unfold reset_step5
  split
  · intro stOpt hmem
    exact absurd hmem (List.not_mem_nil stOpt)
  · split
    · rename_i hcond
      intro stOpt hmem
      rw [List.mem_singleton] at hmem
      subst hmem
      exact hcond
    · intro stOpt hmem
      exact absurd hmem (List.not_mem_nil stOpt)

theorem reset_step4_arm_calls (a : AlarmArmer) (now : Int) (intervention : Option Intervention)
    (source : Option ChangeSource) (existing_state : AlarmState)
    (active_ev : Option CalendarEvent) :
    (reset_step4 a now intervention source existing_state active_ev).determine_called = true →
    ∀ stOpt ∈ (reset_step4 a now intervention source existing_state active_ev).arm_calls,
      stOpt ≠ none ∧ stOpt ≠ some AlarmState.pending ∧ stOpt ≠ some existing_state := by
  simp only [reset_step4]
  split
  · intro _
    exact reset_step5_arm_calls a now source existing_state _ none active_ev
  · split
    · intro hdc
      exact absurd hdc (by simp)
    · intro _
      exact reset_step5_arm_calls a now source existing_state _ _ active_ev

theorem reset_body_arm_calls (a : AlarmArmer) (now : Int) (intervention : Option Intervention)
    (source : Option ChangeSource) (existing_state : AlarmState) :
    (reset_body a now intervention source existing_state).determine_called = true →
    ∀ stOpt ∈ (reset_body a now intervention source existing_state).arm_calls,
      stOpt ≠ none ∧ stOpt ≠ some AlarmState.pending ∧ stOpt ≠ some existing_state := by
  simp only [reset_body]
  split
  · exact reset_step4_arm_calls a now intervention source existing_state none
  · split
    · intro hdc
      exact absurd hdc (by simp)
    · split
      · intro hdc
        exact absurd hdc (by simp)
      · split
        · intro hdc
          exact absurd hdc (by simp)
        · exact reset_step4_arm_calls a now intervention source existing_state none

/-- C6 amended: the recompute path (the branch that invoked the Decision
Engine) never passes `pending`, `None`, or the unchanged current state
to the Actuator; the other transient states (`arming`, `disarming`,
`triggered`) CAN be passed when the configured rule set — which the
schema permits — targets them. -/
theorem recompute_commit_not_pending (a : AlarmArmer) (now : Int)
    (intervention : Option Intervention) (source0 : Option ChangeSource) (st : AlarmState)
    (hdc : (a.reset_armed_state now intervention source0).determine_called = true)
    (hmem : some st ∈ (a.reset_armed_state now intervention source0).arm_calls) :
    st ≠ AlarmState.pending ∧ st ≠ a.armed_state := by
  have h1 : (a.reset_armed_state now intervention source0).determine_called =
      (reset_body a now intervention (resolve_source source0 intervention) a.armed_state).determine_called :=
    rfl
  have h2 : (a.reset_armed_state now intervention source0).arm_calls =
      (reset_body a now intervention (resolve_source source0 intervention) a.armed_state).arm_calls :=
    rfl
  rw [h1] at hdc
  rw [h2] at hmem
  obtain ⟨_, hpend, hex⟩ :=
    reset_body_arm_calls a now intervention (resolve_source source0 intervention)
      a.armed_state hdc (some st) hmem
  constructor
  · intro heq
    exact hpend (by rw [heq])
  · intro heq
    exact hex (by rw [heq])

/-- Witness for the amended C6: the committed `arming` state from
`c6_armer` is neither `pending` nor the pre-existing state. -/
theorem recompute_commit_not_pending_witness :
    (c6_armer.reset_armed_state 0 none (some .startup)).determine_called = true ∧
    some AlarmState.arming ∈ (c6_armer.reset_armed_state 0 none (some .startup)).arm_calls ∧
    (AlarmState.arming ≠ AlarmState.pending ∧ AlarmState.arming ≠ c6_armer.armed_state) :=
  ⟨rfl, by decide, recompute_commit_not_pending c6_armer 0 none (some .startup) .arming rfl (by decide)⟩

/-! ## C10: diagnostic publish and error propagation -/

theorem arm_preserves_published (a : AlarmArmer) (now : Int) (st : Option AlarmState)
    (source : Option ChangeSource) :
    (a.arm now st source).2.published_diags = a.published_diags := by
  rcases st with _ | s
  · rfl
  · simp only [AlarmArmer.arm]
    split
    · rfl
    · split
      · rfl
      · split
        · split
          · rfl
          · rfl
        · rfl

theorem reset_step5_preserves_published (a : AlarmArmer) (now : Int)
    (source : Option ChangeSource) (existing_state : AlarmState) (must_change : Bool)
    (last_si : Option Intervention) (active_ev : Option CalendarEvent) :
    (reset_step5 a now source existing_state must_change last_si active_ev).armer.published_diags =
      a.published_diags := by
  simp only [reset_step5]
  split
  · rfl
  · split
    · exact arm_preserves_published a now _ source
    · rfl

theorem reset_step4_preserves_published (a : AlarmArmer) (now : Int)
    (intervention : Option Intervention) (source : Option ChangeSource)
    (existing_state : AlarmState) (active_ev : Option CalendarEvent) :
    (reset_step4 a now intervention source existing_state active_ev).armer.published_diags =
      a.published_diags := by
  simp only [reset_step4]
  split
  · exact reset_step5_preserves_published a now source existing_state _ none active_ev
  · split
    · rfl
    · exact reset_step5_preserves_published a now source existing_state _ _ active_ev

theorem reset_body_preserves_published (a : AlarmArmer) (now : Int)
    (intervention : Option Intervention) (source : Option ChangeSource)
    (existing_state : AlarmState) :
    (reset_body a now intervention source existing_state).armer.published_diags =
      a.published_diags := by
  simp only [reset_body]
  split
  · exact reset_step4_preserves_published a now intervention source existing_state none
  · split
    · rfl
    · split
      · rfl
      · split
        · exact arm_preserves_published a now _ (some .calendar)
        · exact reset_step4_preserves_published a now intervention source existing_state none

theorem reset_step5_error_result (a : AlarmArmer) (now : Int) (source : Option ChangeSource)
    (existing_state : AlarmState) (must_change : Bool) (last_si : Option Intervention)
    (active_ev : Option CalendarEvent) (e : String) (hdet : a.determine_state now = .error e) :
    (reset_step5 a now source existing_state must_change last_si active_ev).result = .error e := by
  simp only [reset_step5, hdet]

theorem reset_step4_error_result (a : AlarmArmer) (now : Int)
    (intervention : Option Intervention) (source : Option ChangeSource)
    (existing_state : AlarmState) (active_ev : Option CalendarEvent) (e : String)
    (hdc : (reset_step4 a now intervention source existing_state active_ev).determine_called = true)
    (hdet : a.determine_state now = .error e) :
    (reset_step4 a now intervention source existing_state active_ev).result = .error e := by
  simp only [reset_step4] at hdc ⊢
  split
  · exact reset_step5_error_result a now source existing_state _ none active_ev e hdet
  · split
    · rename_i hcond hsi
      rw [if_neg hcond, if_pos hsi] at hdc
      exact absurd hdc (by simp)
    · exact reset_step5_error_result a now source existing_state _ _ active_ev e hdet

theorem reset_body_error_result (a : AlarmArmer) (now : Int)
    (intervention : Option Intervention) (source : Option ChangeSource)
    (existing_state : AlarmState) (e : String)
    (hdc : (reset_body a now intervention source existing_state).determine_called = true)
    (hdet : a.determine_state now = .error e) :
    (reset_body a now intervention source existing_state).result = .error e := by
  simp only [reset_body] at hdc ⊢
  by_cases hcal : a.calendars = []
  · rw [if_pos hcal] at hdc ⊢
    exact reset_step4_error_result a now intervention source existing_state none e hdc hdet
  · rw [if_neg hcal] at hdc ⊢
    cases hev : a.active_calendar_event now with
    | some ev =>
      rw [hev] at hdc
      simp at hdc
    | none =>
      rw [hev] at hdc
      by_cases hman : a.calendar_no_event_mode = some "manual"
      · rw [if_pos hman] at hdc
        simp at hdc
      · rw [if_neg hman] at hdc ⊢
        by_cases hmode : mode_is_alarm_state a.calendar_no_event_mode = true
        · rw [if_pos hmode] at hdc
          simp at hdc
        · rw [if_neg hmode] at hdc ⊢
          exact reset_step4_error_result a now intervention source existing_state none e hdc hdet

/-- C10: every `reset_armed_state` call appends exactly one
last-calculation diagnostic record, on every path — the publish itself
never touches the panel state — and a predicate evaluation error raised
while the Decision Engine was computing still propagates to the caller
after the publish. -/
theorem diagnostic_always_published (a : AlarmArmer) (now : Int)
    (intervention : Option Intervention) (source0 : Option ChangeSource) :
    (∃ d, (a.reset_armed_state now intervention source0).armer.published_diags =
      a.published_diags ++ [d]) ∧
    (∀ (a2 : AlarmArmer) (d : DiagRecord), (publish_last_calculation a2 d).panel = a2.panel) ∧
    (∀ e, (a.reset_armed_state now intervention source0).determine_called = true →
      a.determine_state now = .error e →
      (a.reset_armed_state now intervention source0).result = .error e) := by
  refine ⟨?_, fun a2 d => rfl, ?_⟩
  · refine ⟨reset_diag now intervention (resolve_source source0 intervention) a.armed_state
      (reset_body a now intervention (resolve_source source0 intervention) a.armed_state), ?_⟩
    have h1 : (a.reset_armed_state now intervention source0).armer.published_diags =
        (reset_body a now intervention (resolve_source source0 intervention)
            a.armed_state).armer.published_diags ++
          [reset_diag now intervention (resolve_source source0 intervention) a.armed_state
            (reset_body a now intervention (resolve_source source0 intervention) a.armed_state)] :=
      rfl
    rw [h1, reset_body_preserves_published]
  · intro e hdc hdet
    have h1 : (a.reset_armed_state now intervention source0).determine_called =
        (reset_body a now intervention (resolve_source source0 intervention)
          a.armed_state).determine_called := rfl
    have h2 : (a.reset_armed_state now intervention source0).result =
        (reset_body a now intervention (resolve_source source0 intervention)
          a.armed_state).result := rfl
    rw [h1] at hdc
    rw [h2]
    exact reset_body_error_result a now intervention (resolve_source source0 intervention)
      a.armed_state e hdc hdet

/-- An engine state whose only transition predicate raises. -/
def c10_armer : AlarmArmer :=
  { sampleArmer with transitions := [(.armed_home, fun _ => .error "boom")] }

/-- Witness for C10: a predicate that raises still yields exactly one
diagnostic publish, and the error propagates. -/
theorem diagnostic_always_published_witness :
    (c10_armer.reset_armed_state 0 none (some .sunset)).determine_called = true ∧
    c10_armer.determine_state 0 = .error "boom" ∧
    (∃ d, (c10_armer.reset_armed_state 0 none (some .sunset)).armer.published_diags =
      c10_armer.published_diags ++ [d]) ∧
    (c10_armer.reset_armed_state 0 none (some .sunset)).result = .error "boom" :=
  ⟨rfl, rfl, (diagnostic_always_published c10_armer 0 none (some .sunset)).1,
    (diagnostic_always_published c10_armer 0 none (some .sunset)).2.2 "boom" rfl rfl⟩

end Autoarm
